import Mathlib

/-!
Shallow embedding of the revenue-leakage-detector core
(src/agents/data_analyst.py and src/agents/audit_analyst.py).

Numeric columns are modelled as rationals (`ℚ`).  A pandas value that can be
NaN/null is modelled as an `Option`: `none` stands for NaN.  Severities and
leakage types are the string constants used by the source.  Free-text fields
of a detection (description, contextual analysis, recommended action), the
evidence dictionary and timestamps are not modelled: no claim refers to them.
-/

namespace RevenueLeakage

/-- A severity band: half-open loss interval with its severity label.
`(lo, some hi)` models the Python dict key `(lo, hi)`; `(lo, none)` models
`(lo, float(inf))`, whose upper test `loss < inf` is always true. -/
abbrev SeverityBand := (ℚ × Option ℚ) × String

/-- Membership test `min_val <= estimated_loss < max_val` used by
`_calculate_severity` (audit_analyst.py:524). -/
def inBand (loss : ℚ) : ℚ × Option ℚ → Bool
  | (lo, some hi) => decide (lo ≤ loss) && decide (loss < hi)
  | (lo, none) => decide (lo ≤ loss)

/-- The `missing_charges` severity table of `_initialize_business_rules`
(audit_analyst.py:88-93), in the dict insertion order scanned by
`_calculate_severity`. -/
def missingChargesSeverity : List SeverityBand :=
  [((0, some 100), "LOW"), ((100, some 1000), "MEDIUM"),
   ((1000, some 5000), "HIGH"), ((5000, none), "CRITICAL")]

/-- The `incorrect_rates` severity table (audit_analyst.py:97-102). -/
def incorrectRatesSeverity : List SeverityBand :=
  [((0, some 50), "LOW"), ((50, some 500), "MEDIUM"),
   ((500, some 2000), "HIGH"), ((2000, none), "CRITICAL")]

/-- The `usage_mismatches` severity table (audit_analyst.py:106-111). -/
def usageMismatchesSeverity : List SeverityBand :=
  [((0, some 25), "LOW"), ((25, some 200), "MEDIUM"),
   ((200, some 1000), "HIGH"), ((1000, none), "CRITICAL")]

/-- The `duplicate_entries` severity table (audit_analyst.py:115-120). -/
def duplicateEntriesSeverity : List SeverityBand :=
  [((0, some 50), "LOW"), ((50, some 200), "MEDIUM"),
   ((200, some 1000), "HIGH"), ((1000, none), "CRITICAL")]

/-- Scan of the severity table in order: the first band containing the loss
wins, otherwise the default `LOW` (audit_analyst.py:519-527). -/
def severityScan (loss : ℚ) : List SeverityBand → String
  | [] => "LOW"
  | (b, sev) :: rest => if inBand loss b then sev else severityScan loss rest

/-- `_calculate_severity` on a possibly-NaN loss.  A NaN loss (`none`)
satisfies no `min <= loss < max` comparison in Python, so the scan falls
through to the default `LOW`. -/
def calculateSeverity (table : List SeverityBand) : Option ℚ → String
  | none => "LOW"
  | some q => severityScan q table

/-- One row of the joined table consumed by the audit stage: the columns
produced by `perform_intelligent_joins` + `_create_derived_features`
(data_analyst.py:163-272).  Contract columns come first, then the customer
columns merged on `customer_id` (nullable: a contract for an unknown
customer keeps NaN customer fields), then the flattened billing aggregate
columns (data_analyst.py:196-200), then the flattened usage aggregate
columns (data_analyst.py:216-219), then the derived feature columns.
`total_billed` is `Option` because `detect_missing_charges` explicitly
tests it for null.  `error_types` is the string form in which the audit
agent sees the aggregated list column (it reloads the table from CSV, where
the Python list was serialized as its repr).  `has_rate_error` is `none`
when the contract had no billing rows (the merge leaves NaN and the numeric
`fillna(0)` does not touch the object column).  There is no
`overage_charge` column: the billing aggregation does not carry one. -/
structure JoinedRecord where
  contract_id : String
  customer_id : String
  service_type : String
  start_date : Nat
  end_date : Nat
  base_rate : ℚ
  tier_multiplier : ℚ
  contracted_rate : ℚ
  is_promotional : Bool
  promo_expiry_date : Option Nat
  usage_based : Bool
  usage_unit : String
  included_usage : ℚ
  overage_rate : ℚ
  customer_name : Option String
  tier : Option String
  status : Option String
  email : Option String
  total_billed : Option ℚ
  avg_bill_amount : ℚ
  bill_count : ℚ
  first_bill_date : Option Nat
  last_bill_date : Option Nat
  billing_status : Option String
  error_types : Option String
  has_rate_error : Option Bool
  total_usage : ℚ
  avg_usage : ℚ
  max_daily_usage : ℚ
  usage_days : ℚ
  first_usage_date : Option Nat
  last_usage_date : Option Nat
  expected_monthly_revenue : ℚ
  revenue_variance : ℚ
  revenue_variance_pct : ℚ
  expected_overage_usage : ℚ
  expected_overage_revenue : ℚ
  leakage_risk_score : ℚ
deriving DecidableEq

/-- The fields of a `LeakageDetection` (audit_analyst.py:38-52) that the
claims refer to.  `estimated_loss` is `Option ℚ`: `none` models a NaN loss
(a NaN `total_billed` propagates through the subtraction). -/
structure LeakageDetection where
  customer_id : String
  contract_id : String
  leakage_type : String
  severity : String
  confidence : ℚ
  estimated_loss : Option ℚ
deriving DecidableEq

/-- Candidate mask of `detect_missing_charges` (audit_analyst.py:152-156):
`total_billed == 0`, `total_billed` null, or `bill_count == 0`. -/
def missingChargeCandidate (r : JoinedRecord) : Bool :=
  decide (r.total_billed = some 0) || decide (r.total_billed = none) ||
    decide (r.bill_count = 0)

/-- Estimated loss of `detect_missing_charges` (audit_analyst.py:162-164):
`contracted_rate * max(1, bill_count) - total_billed`; NaN `total_billed`
makes the loss NaN. -/
def missingChargeLoss (r : JoinedRecord) : Option ℚ :=
  match r.total_billed with
  | none => none
  | some tb => some (r.contracted_rate * max 1 r.bill_count - tb)

/-- `_calculate_confidence_missing_charges` (audit_analyst.py:529-543):
base 0.5, +0.2 if customer status is Active, +0.2 if `total_usage > 0`,
+0.3 if `bill_count == 0`, capped at 1.0. -/
def confidenceMissingCharges (r : JoinedRecord) : ℚ :=
  min 1 (1/2 + (if r.status = some "Active" then 1/5 else 0)
    + (if r.total_usage > 0 then 1/5 else 0)
    + (if r.bill_count = 0 then 3/10 else 0))

/-- Per-row body of the `detect_missing_charges` loop
(audit_analyst.py:160-208): a candidate row emits a MISSING_CHARGES
detection when `confidence >= confidence_threshold`. -/
def detectMissingChargesRow (threshold : ℚ) (r : JoinedRecord) :
    Option LeakageDetection :=
  if missingChargeCandidate r then
    let confidence := confidenceMissingCharges r
    let loss := missingChargeLoss r
    if threshold ≤ confidence then
      some { customer_id := r.customer_id, contract_id := r.contract_id,
             leakage_type := "MISSING_CHARGES",
             severity := calculateSeverity missingChargesSeverity loss,
             confidence := confidence, estimated_loss := loss }
    else none
  else none

/-- `detect_missing_charges` over the whole table. -/
def detect_missing_charges (threshold : ℚ) (rows : List JoinedRecord) :
    List LeakageDetection :=
  rows.filterMap (detectMissingChargesRow threshold)

/-- `expected_rate = base_rate * tier_multiplier` (audit_analyst.py:223). -/
def expected_rate (r : JoinedRecord) : ℚ :=
  r.base_rate * r.tier_multiplier

/-- `rate_variance = abs(expected_rate - avg_bill_amount)`
(audit_analyst.py:224). -/
def rate_variance (r : JoinedRecord) : ℚ :=
  |expected_rate r - r.avg_bill_amount|

/-- `rate_variance_pct` (audit_analyst.py:225-229): the percentage when
`expected_rate > 0`, else 0. -/
def rate_variance_pct (r : JoinedRecord) : ℚ :=
  if expected_rate r > 0 then rate_variance r / expected_rate r * 100 else 0

/-- Candidate mask of `detect_incorrect_rates` (audit_analyst.py:232-235):
`rate_variance_pct > variance_threshold * 100` (= 0.05 * 100 = 5) AND
`rate_variance > 10`. -/
def incorrectRateCandidate (r : JoinedRecord) : Bool :=
  decide (rate_variance_pct r > 5) && decide (rate_variance r > 10)

/-- Truthiness of the `has_rate_error` cell as Python sees it
(`if record.get('has_rate_error'):`): a NaN cell — a contract with no
billing rows — is a float NaN and is truthy. -/
def rateErrorFlag (r : JoinedRecord) : Bool :=
  r.has_rate_error.getD true

/-- `_calculate_confidence_incorrect_rates` (audit_analyst.py:545-557):
base 0.6, +0.3 if `has_rate_error` is truthy, +0.1 if
`rate_variance_pct > 20`, capped at 1.0. -/
def confidenceIncorrectRates (r : JoinedRecord) : ℚ :=
  min 1 (3/5 + (if rateErrorFlag r then 3/10 else 0)
    + (if rate_variance_pct r > 20 then 1/10 else 0))

/-- Per-row body of the `detect_incorrect_rates` loop
(audit_analyst.py:239-287): estimated loss is
`rate_variance * bill_count`; emit when `confidence >= threshold`. -/
def detectIncorrectRatesRow (threshold : ℚ) (r : JoinedRecord) :
    Option LeakageDetection :=
  if incorrectRateCandidate r then
    let estimated_loss := rate_variance r * r.bill_count
    let confidence := confidenceIncorrectRates r
    if threshold ≤ confidence then
      some { customer_id := r.customer_id, contract_id := r.contract_id,
             leakage_type := "INCORRECT_RATES",
             severity := calculateSeverity incorrectRatesSeverity
               (some estimated_loss),
             confidence := confidence, estimated_loss := some estimated_loss }
    else none
  else none

/-- `detect_incorrect_rates` over the whole table. -/
def detect_incorrect_rates (threshold : ℚ) (rows : List JoinedRecord) :
    List LeakageDetection :=
  rows.filterMap (detectIncorrectRatesRow threshold)

/-- `actual_overage_usage = max(0, total_usage - included_usage)`
(audit_analyst.py:306). -/
def actual_overage_usage (r : JoinedRecord) : ℚ :=
  max 0 (r.total_usage - r.included_usage)

/-- `expected_overage_revenue` recomputed by `detect_usage_mismatches`
(audit_analyst.py:307): `actual_overage_usage * overage_rate`. -/
def usageExpectedOverageRevenue (r : JoinedRecord) : ℚ :=
  actual_overage_usage r * r.overage_rate

/-- The `overage_charge` term of `detect_usage_mismatches`
(audit_analyst.py:310): `usage_analysis.get('overage_charge', 0)`.  The
joined table has no `overage_charge` column (the billing aggregation,
data_analyst.py:187-200, does not carry one), so the `DataFrame.get`
returns its default, the scalar 0. -/
def overageChargeColumn : ℚ := 0

/-- `overage_variance = expected_overage_revenue - overage_charge`
(audit_analyst.py:310). -/
def overage_variance (r : JoinedRecord) : ℚ :=
  usageExpectedOverageRevenue r - overageChargeColumn

/-- `usage_variance_pct` (audit_analyst.py:311-315): the absolute
percentage when `expected_overage_revenue > 0`, else 0. -/
def usage_variance_pct (r : JoinedRecord) : ℚ :=
  if usageExpectedOverageRevenue r > 0 then
    |overage_variance r / usageExpectedOverageRevenue r| * 100
  else 0

/-- Candidate mask of `detect_usage_mismatches` (audit_analyst.py:318-321):
`usage_variance_pct > variance_threshold * 100` (= 0.15 * 100 = 15) AND
`abs(overage_variance) > 5`. -/
def usageMismatchCandidate (r : JoinedRecord) : Bool :=
  decide (usage_variance_pct r > 15) && decide (|overage_variance r| > 5)

/-- `_calculate_confidence_usage_mismatch` (audit_analyst.py:559-571):
base 0.6, +0.2 if `usage_variance_pct > 50`, +0.1 if
`total_usage > included_usage`, capped at 1.0. -/
def confidenceUsageMismatch (r : JoinedRecord) : ℚ :=
  min 1 (3/5 + (if usage_variance_pct r > 50 then 1/5 else 0)
    + (if r.total_usage > r.included_usage then 1/10 else 0))

/-- Per-row body of `detect_usage_mismatches` (audit_analyst.py:299-371):
only rows with `usage_based == True` are analyzed; estimated loss is
`abs(overage_variance)`; emit when `confidence >= threshold`. -/
def detectUsageMismatchesRow (threshold : ℚ) (r : JoinedRecord) :
    Option LeakageDetection :=
  if r.usage_based then
    if usageMismatchCandidate r then
      let estimated_loss := |overage_variance r|
      let confidence := confidenceUsageMismatch r
      if threshold ≤ confidence then
        some { customer_id := r.customer_id, contract_id := r.contract_id,
               leakage_type := "USAGE_MISMATCHES",
               severity := calculateSeverity usageMismatchesSeverity
                 (some estimated_loss),
               confidence := confidence,
               estimated_loss := some estimated_loss }
      else none
    else none
  else none

/-- `detect_usage_mismatches` over the whole table. -/
def detect_usage_mismatches (threshold : ℚ) (rows : List JoinedRecord) :
    List LeakageDetection :=
  rows.filterMap (detectUsageMismatchesRow threshold)

/-- Does `needle` occur at the head of `hay`? (character-level helper). -/
def startsWithChars : List Char → List Char → Bool
  | [], _ => true
  | _ :: _, [] => false
  | a :: as, b :: bs => a == b && startsWithChars as bs

/-- Does `needle` occur anywhere in `hay`? (character-level helper). -/
def hasSubChars (needle : List Char) : List Char → Bool
  | [] => needle.isEmpty
  | h :: t => startsWithChars needle (h :: t) || hasSubChars needle t

/-- Python substring membership `needle in hay` on strings. -/
def strContainsSub (hay needle : String) : Bool :=
  hasSubChars needle.data hay.data

/-- Candidate mask of `detect_duplicate_entries` (audit_analyst.py:388-390):
`'DUPLICATE_ENTRY' in str(x) if pd.notna(x) else False` on the
`error_types` cell. -/
def duplicateCandidate (r : JoinedRecord) : Bool :=
  match r.error_types with
  | none => false
  | some s => strContainsSub s "DUPLICATE_ENTRY"

/-- Per-row body of the `detect_duplicate_entries` loop
(audit_analyst.py:394-432): estimated loss is the row's `total_billed`
(NaN propagates), confidence is the fixed 0.9, and the detection is
appended unconditionally — there is no threshold gate. -/
def detectDuplicateRow (r : JoinedRecord) : LeakageDetection :=
  { customer_id := r.customer_id, contract_id := r.contract_id,
    leakage_type := "DUPLICATE_ENTRIES",
    severity := calculateSeverity duplicateEntriesSeverity r.total_billed,
    confidence := 9/10, estimated_loss := r.total_billed }

/-- `detect_duplicate_entries` over the whole table: one detection per
flagged row. -/
def detect_duplicate_entries (rows : List JoinedRecord) :
    List LeakageDetection :=
  (rows.filter duplicateCandidate).map detectDuplicateRow

/-- `min(0.8, abs(anomaly_score) * 2)` (audit_analyst.py:489). -/
def confidenceAnomaly (score : ℚ) : ℚ :=
  min (4/5) (|score| * 2)

/-- Per-row body of the `perform_anomaly_detection` loop
(audit_analyst.py:470-513).  The isolation forest is abstracted as the two
oracles `isOutlier` (its binary prediction `== -1`) and `score` (its
`decision_function` value); the emission logic is translated from the
source: a row is significant when it is an outlier and its score is below
-0.1; a significant row with `abs(revenue_variance) < 10` is skipped;
otherwise a STATISTICAL_ANOMALY detection is appended unconditionally —
there is no confidence-threshold gate.  Severity reuses the
`missing_charges` table (audit_analyst.py:490). -/
def detectAnomalyRow (isOutlier : JoinedRecord → Bool)
    (score : JoinedRecord → ℚ) (r : JoinedRecord) :
    Option LeakageDetection :=
  if isOutlier r && decide (score r < -(1/10)) then
    let estimated_loss := |r.revenue_variance|
    if estimated_loss < 10 then none
    else
      some { customer_id := r.customer_id, contract_id := r.contract_id,
             leakage_type := "STATISTICAL_ANOMALY",
             severity := calculateSeverity missingChargesSeverity
               (some estimated_loss),
             confidence := confidenceAnomaly (score r),
             estimated_loss := some estimated_loss }
  else none

/-- `perform_anomaly_detection` (audit_analyst.py:437-516): with fewer
than 10 rows it returns the empty detection list (after logging the
insufficient-data warning); otherwise it scores every row and emits the
significant anomalies. -/
def perform_anomaly_detection (rows : List JoinedRecord)
    (isOutlier : JoinedRecord → Bool) (score : JoinedRecord → ℚ) :
    List LeakageDetection :=
  if rows.length < 10 then []
  else rows.filterMap (detectAnomalyRow isOutlier score)

/-- The insufficient-data condition signalled (as a log warning) by
`perform_anomaly_detection` (audit_analyst.py:453-455). -/
def anomalyInsufficientData (rows : List JoinedRecord) : Bool :=
  decide (rows.length < 10)

/-- `run_full_audit` (audit_analyst.py:621-667): the five detector calls
run sequentially inside one `try` block whose handler logs and re-raises.
Each argument is the outcome of one detector: `Except.ok` its detection
list, `Except.error` an exception escaping it (e.g. a `KeyError` for a
column it assumes present).  An exception in any detector propagates:
nothing after it runs and no detections are returned. -/
def run_full_audit (missing rates usage dups anomalies :
    Except String (List LeakageDetection)) :
    Except String (List LeakageDetection) := do
  let m ← missing
  let r ← rates
  let u ← usage
  let d ← dups
  let a ← anomalies
  pure (m ++ r ++ u ++ d ++ a)

/-- A row of the cleaned `customers` table; the columns selected for the
join are `customer_id, customer_name, tier, status, email`
(data_analyst.py:175). -/
structure Customer where
  customer_id : String
  customer_name : String
  tier : String
  status : String
  email : String
deriving DecidableEq

/-- A row of the cleaned `contracts` table (columns produced by
generate_sample_data.py:97-112).  Dates are day ordinals. -/
structure Contract where
  contract_id : String
  customer_id : String
  service_type : String
  start_date : Nat
  end_date : Nat
  base_rate : ℚ
  tier_multiplier : ℚ
  contracted_rate : ℚ
  is_promotional : Bool
  promo_expiry_date : Option Nat
  usage_based : Bool
  usage_unit : String
  included_usage : ℚ
  overage_rate : ℚ
deriving DecidableEq

/-- A row of the cleaned `billing_data` table: the columns the aggregation
touches, plus `overage_charge`, which the raw events do carry
(generate_sample_data.py:294) but the aggregation drops. -/
structure BillingEvent where
  billing_id : String
  customer_id : String
  contract_id : String
  billing_date : Nat
  total_amount : ℚ
  overage_charge : ℚ
  status : String
  billing_error_type : Option String
  rate_error : Bool
deriving DecidableEq

/-- A row of the cleaned `usage_logs` table. -/
structure UsageEvent where
  customer_id : String
  contract_id : String
  usage_date : Nat
  usage_amount : ℚ
deriving DecidableEq

/-- One row of the flattened billing aggregate (data_analyst.py:187-200):
exactly the columns `contract_id, total_billed, avg_bill_amount,
bill_count, first_bill_date, last_bill_date, billing_status, error_types,
has_rate_error`.  In particular there is no `overage_charge` column. -/
structure BillingAggRow where
  contract_id : String
  total_billed : ℚ
  avg_bill_amount : ℚ
  bill_count : ℚ
  first_bill_date : Option Nat
  last_bill_date : Option Nat
  billing_status : String
  error_types : List String
  has_rate_error : Bool
deriving DecidableEq

/-- One row of the flattened usage aggregate (data_analyst.py:210-219). -/
structure UsageAggRow where
  contract_id : String
  total_usage : ℚ
  avg_usage : ℚ
  max_daily_usage : ℚ
  usage_days : ℚ
  first_usage_date : Option Nat
  last_usage_date : Option Nat
deriving DecidableEq

/-- Lexicographically smallest element among those with the maximal
multiplicity: `x.mode().iloc[0]` of pandas (mode returns the modal values
sorted; `iloc[0]` takes the first), with the source's `'UNKNOWN'` fallback
for an empty list (data_analyst.py:190; unreachable for groupby groups,
which are never empty). -/
def listMode (l : List String) : String :=
  match l.dedup with
  | [] => "UNKNOWN"
  | u :: us =>
    (u :: us).foldl (fun a b =>
      if l.count b > l.count a then b
      else if l.count b = l.count a && b < a then b else a) u

/-- `billing.groupby('contract_id').agg(...)` (data_analyst.py:187-200):
one aggregate row per distinct contract id, in first-appearance order,
with the named reducers sum / mean / count / min / max / mode /
dropna-tolist / any. -/
def billingAgg (billing : List BillingEvent) : List BillingAggRow :=
  ((billing.map (·.contract_id)).dedup).map fun k =>
    let evs := billing.filter (fun e => decide (e.contract_id = k))
    let amounts := evs.map (·.total_amount)
    { contract_id := k
      total_billed := amounts.sum
      avg_bill_amount := amounts.sum / (amounts.length : ℚ)
      bill_count := (evs.length : ℚ)
      first_bill_date := (evs.map (·.billing_date)).min?
      last_bill_date := (evs.map (·.billing_date)).max?
      billing_status := listMode (evs.map (·.status))
      error_types := evs.filterMap (·.billing_error_type)
      has_rate_error := evs.any (·.rate_error) }

/-- `usage.groupby('contract_id').agg(...)` (data_analyst.py:210-219). -/
def usageAgg (usage : List UsageEvent) : List UsageAggRow :=
  ((usage.map (·.contract_id)).dedup).map fun k =>
    let evs := usage.filter (fun e => decide (e.contract_id = k))
    let amounts := evs.map (·.usage_amount)
    { contract_id := k
      total_usage := amounts.sum
      avg_usage := amounts.sum / (amounts.length : ℚ)
      max_daily_usage := (amounts.max?).getD 0
      usage_days := (evs.length : ℚ)
      first_usage_date := (evs.map (·.usage_date)).min?
      last_usage_date := (evs.map (·.usage_date)).max? }

/-- `base_df.merge(right, on=key, how='left')`: each base row pairs with
every matching right row, or with `none` when no right row matches (the
left-join keeps it with NaN right fields). -/
def leftJoin {α β γ : Type} (base : List α) (right : List β)
    (onKey : α → β → Bool) (combine : α → Option β → γ) : List γ :=
  base.flatMap fun a =>
    match right.filter (onKey a) with
    | [] => [combine a none]
    | bs => bs.map (fun b => combine a (some b))

/-- The apostrophe character of the Python list repr. -/
def pyQuote : String := String.singleton (Char.ofNat 39)

/-- Python `repr` of a list of strings, the form in which the audit agent
sees the `error_types` column after the CSV round trip. -/
def pyListRepr (l : List String) : String :=
  "[" ++ String.intercalate ", " (l.map (fun s => pyQuote ++ s ++ pyQuote))
    ++ "]"

/-- Assembly of one `JoinedRecord` from a contract and its (possibly
missing) join partners, including the `fillna(0)` over numeric columns
(data_analyst.py:224-226) and `_create_derived_features`
(data_analyst.py:236-272).  Object columns (`billing_status`,
`error_types`, customer fields, dates) are not numeric and keep NaN
(`none`) when the contract has no partner rows.  The `has_rate_error`
cell of a contract with no billing rows is also NaN — and there the risk
indicator `df['has_rate_error'].astype(int)` (data_analyst.py:263) cannot
convert the NaN: the cast raises `ValueError` out of
`perform_intelligent_joins`, modelled as the `Except.error` branch. -/
def assembleRow (c : Contract) (cu : Option Customer)
    (ba : Option BillingAggRow) (ua : Option UsageAggRow) :
    Except String JoinedRecord :=
  match ba.map (·.has_rate_error) with
  | none => Except.error "ValueError: cannot convert float NaN to integer"
  | some hre =>
    let total_billed : ℚ := (ba.map (·.total_billed)).getD 0
    let bill_count : ℚ := (ba.map (·.bill_count)).getD 0
    let total_usage : ℚ := (ua.map (·.total_usage)).getD 0
    let emr : ℚ := c.contracted_rate * bill_count
    let rv : ℚ := emr - total_billed
    let rvp : ℚ := if emr > 0 then rv / emr * 100 else 0
    let eou : ℚ := max 0 (total_usage - c.included_usage)
    Except.ok
    { contract_id := c.contract_id
      customer_id := c.customer_id
      service_type := c.service_type
      start_date := c.start_date
      end_date := c.end_date
      base_rate := c.base_rate
      tier_multiplier := c.tier_multiplier
      contracted_rate := c.contracted_rate
      is_promotional := c.is_promotional
      promo_expiry_date := c.promo_expiry_date
      usage_based := c.usage_based
      usage_unit := c.usage_unit
      included_usage := c.included_usage
      overage_rate := c.overage_rate
      customer_name := cu.map (·.customer_name)
      tier := cu.map (·.tier)
      status := cu.map (·.status)
      email := cu.map (·.email)
      total_billed := some total_billed
      avg_bill_amount := (ba.map (·.avg_bill_amount)).getD 0
      bill_count := bill_count
      first_bill_date := ba.bind (·.first_bill_date)
      last_bill_date := ba.bind (·.last_bill_date)
      billing_status := ba.map (·.billing_status)
      error_types := ba.map (fun b => pyListRepr b.error_types)
      has_rate_error := ba.map (·.has_rate_error)
      total_usage := total_usage
      avg_usage := (ua.map (·.avg_usage)).getD 0
      max_daily_usage := (ua.map (·.max_daily_usage)).getD 0
      usage_days := (ua.map (·.usage_days)).getD 0
      first_usage_date := ua.bind (·.first_usage_date)
      last_usage_date := ua.bind (·.last_usage_date)
      expected_monthly_revenue := emr
      revenue_variance := rv
      revenue_variance_pct := rvp
      expected_overage_usage := eou
      expected_overage_revenue := eou * c.overage_rate
      leakage_risk_score := (if |rvp| > 10 then 1 else 0)
        + (if hre then 1 else 0) }

/-- Fallible map: the first exception propagates and nothing is
returned, like a pandas column operation raising inside a function. -/
def mapExcept {α β : Type} (f : α → Except String β) :
    List α → Except String (List β)
  | [] => Except.ok []
  | a :: t =>
    match f a with
    | Except.error e => Except.error e
    | Except.ok b =>
      match mapExcept f t with
      | Except.error e => Except.error e
      | Except.ok bs => Except.ok (b :: bs)

/-- `perform_intelligent_joins` (data_analyst.py:163-234): contracts are
the base table; left-join the customer subset on `customer_id`, then the
billing aggregate on `contract_id`, then the usage aggregate on
`contract_id`; finally fill numeric gaps and derive features (both inside
`assembleRow`).  The derived-feature step raises `ValueError` when any
contract has no billing rows: its NaN `has_rate_error` cell survives the
numeric-only `fillna(0)` and `astype(int)` cannot convert it
(data_analyst.py:263), so the whole call returns no table. -/
def perform_intelligent_joins (contracts : List Contract)
    (customers : List Customer) (billing : List BillingEvent)
    (usage : List UsageEvent) : Except String (List JoinedRecord) :=
  mapExcept (fun p => assembleRow p.1.1.1 p.1.1.2 p.1.2 p.2)
    (leftJoin
      (leftJoin
        (leftJoin contracts customers
          (fun c cu => decide (cu.customer_id = c.customer_id)) Prod.mk)
        (billingAgg billing)
        (fun p b => decide (b.contract_id = p.1.contract_id)) Prod.mk)
      (usageAgg usage)
      (fun p u => decide (u.contract_id = p.1.1.contract_id)) Prod.mk)

/-- A neutral joined row used as the base of the concrete scenarios. -/
def baseRow : JoinedRecord :=
  { contract_id := "CT0", customer_id := "CU0", service_type := "Internet",
    start_date := 0, end_date := 730, base_rate := 0, tier_multiplier := 0,
    contracted_rate := 0, is_promotional := false,
    promo_expiry_date := none, usage_based := false, usage_unit := "GB",
    included_usage := 0, overage_rate := 0, customer_name := none,
    tier := none, status := none, email := none, total_billed := some 0,
    avg_bill_amount := 0, bill_count := 0, first_bill_date := none,
    last_bill_date := none, billing_status := none, error_types := none,
    has_rate_error := some false, total_usage := 0, avg_usage := 0,
    max_daily_usage := 0, usage_days := 0, first_usage_date := none,
    last_usage_date := none, expected_monthly_revenue := 0,
    revenue_variance := 0, revenue_variance_pct := 0,
    expected_overage_usage := 0, expected_overage_revenue := 0,
    leakage_risk_score := 0 }

/-- Scenario A (spec §8): `contracted_rate=100`, `bill_count=0`,
`total_billed=0`, customer status Active, `total_usage=50`. -/
def rowA : JoinedRecord :=
  { baseRow with
    contract_id := "CTA", customer_id := "CUA", contracted_rate := 100,
    bill_count := 0, total_billed := some 0, status := some "Active",
    total_usage := 50 }

/-- The detection Scenario A must produce. -/
def detA : LeakageDetection :=
  { customer_id := "CUA", contract_id := "CTA",
    leakage_type := "MISSING_CHARGES", severity := "MEDIUM",
    confidence := 1, estimated_loss := some 100 }

/-! Helper lemmas shared by several claim theorems. -/

/-- The table scan yields the default or one of the table's labels. -/
lemma severityScan_mem (q : ℚ) (table : List SeverityBand) :
    severityScan q table = "LOW" ∨
      severityScan q table ∈ table.map (fun b => b.2) := by
  induction table with
  | nil => left; rfl
  | cons b t ih =>
    rcases b with ⟨bd, sev⟩
    by_cases hb : inBand q bd = true
    · right
      simp [severityScan, hb]
    · rcases ih with h | h
      · left
        simpa [severityScan, hb] using h
      · right
        rw [List.map_cons,
          show severityScan q ((bd, sev) :: t) = severityScan q t from by
            simp [severityScan, hb]]
        exact List.mem_cons_of_mem _ h

/-- Every label of the four concrete severity tables is one of the four
severities, so `calculateSeverity` always lands in that set. -/
lemma calculateSeverity_mem (table : List SeverityBand)
    (h : ∀ b ∈ table, b.2 ∈ (["LOW", "MEDIUM", "HIGH", "CRITICAL"] :
      List String)) (loss : Option ℚ) :
    calculateSeverity table loss ∈
      (["LOW", "MEDIUM", "HIGH", "CRITICAL"] : List String) := by
  cases loss with
  | none => simp [calculateSeverity]
  | some q =>
    rcases severityScan_mem q table with hq | hq
    · simp [calculateSeverity, hq]
    · rcases List.mem_map.mp hq with ⟨b, hb, hbq⟩
      simpa [calculateSeverity, hbq] using h b hb

/-- Bounds of a capped confidence `min 1 x` with a non-negative body. -/
lemma min_one_bounds {x : ℚ} (hx : 0 ≤ x) :
    0 ≤ min 1 x ∧ min 1 x ≤ 1 :=
  ⟨le_min (by norm_num) hx, min_le_left _ _⟩

lemma confidenceMissingCharges_bounds (r : JoinedRecord) :
    0 ≤ confidenceMissingCharges r ∧ confidenceMissingCharges r ≤ 1 := by
  refine min_one_bounds ?_
  split_ifs <;> norm_num

lemma confidenceIncorrectRates_bounds (r : JoinedRecord) :
    0 ≤ confidenceIncorrectRates r ∧ confidenceIncorrectRates r ≤ 1 := by
  refine min_one_bounds ?_
  split_ifs <;> norm_num

lemma confidenceUsageMismatch_bounds (r : JoinedRecord) :
    0 ≤ confidenceUsageMismatch r ∧ confidenceUsageMismatch r ≤ 1 := by
  refine min_one_bounds ?_
  split_ifs <;> norm_num

lemma confidenceAnomaly_bounds (s : ℚ) :
    0 ≤ confidenceAnomaly s ∧ confidenceAnomaly s ≤ 1 := by
  constructor
  · exact le_min (by norm_num) (by positivity)
  · exact le_trans (min_le_left _ _) (by norm_num)

/-- C4: severity is computed by scanning the leakage-type-specific ordered
table of half-open intervals (min inclusive, max exclusive); the first
interval containing the loss wins (the scan is the first-match `find?`);
when no interval contains the loss (e.g. a negative loss) the default is
LOW.  On the missing-charges table, a loss of exactly 100 maps to MEDIUM,
99.999 maps to LOW, exactly 5000 maps to CRITICAL. -/
theorem C4_severity_mapping :
    (∀ (q : ℚ) (table : List SeverityBand),
        severityScan q table =
          ((table.find? fun b => inBand q b.1).map (fun b => b.2)).getD
            "LOW") ∧
    (∀ q : ℚ, q < 0 →
        calculateSeverity missingChargesSeverity (some q) = "LOW") ∧
    calculateSeverity missingChargesSeverity (some 100) = "MEDIUM" ∧
    calculateSeverity missingChargesSeverity (some (99999/1000)) = "LOW" ∧
    calculateSeverity missingChargesSeverity (some 5000) = "CRITICAL" := by
  refine ⟨?_, ?_, ?_, ?_, ?_⟩
  · intro q table
    induction table with
    | nil => rfl
    | cons b t ih =>
      rcases b with ⟨bd, sev⟩
      by_cases hb : inBand q bd = true
      · simp [severityScan, List.find?_cons_of_pos, hb]
      · rw [severityScan, if_neg (by simpa using hb), ih,
          List.find?_cons_of_neg _ (by simpa using hb)]
  · intro q hq
    have h0 : ¬(0:ℚ) ≤ q := not_le.mpr hq
    have h1 : ¬(100:ℚ) ≤ q := by linarith
    have h2 : ¬(1000:ℚ) ≤ q := by linarith
    have h3 : ¬(5000:ℚ) ≤ q := by linarith
    simp [calculateSeverity, severityScan, inBand, missingChargesSeverity,
      h0, h1, h2, h3]
  · norm_num [calculateSeverity, severityScan, inBand,
      missingChargesSeverity]
  · norm_num [calculateSeverity, severityScan, inBand,
      missingChargesSeverity]
  · norm_num [calculateSeverity, severityScan, inBand,
      missingChargesSeverity]

/-- Witness for C4: the negative-loss default evaluated at -5. -/
theorem C4_witness :
    calculateSeverity missingChargesSeverity (some (-5)) = "LOW" :=
  C4_severity_mapping.2.1 (-5) (by norm_num)

/-- C5: the missing-charges detector selects exactly the rows with
`total_billed == 0`, `total_billed` null, or `bill_count == 0`; for a
selected row with a non-null `total_billed` the estimated loss is
`contracted_rate * max(1, bill_count) - total_billed` and the confidence
is `min(1, 0.5 + 0.2 [status Active] + 0.2 [total_usage > 0] +
0.3 [bill_count == 0])`.  Scenario A (`contracted_rate=100`,
`bill_count=0`, `total_billed=0`, status Active, `total_usage=50`) emits a
MISSING_CHARGES detection with loss 100, capped confidence 1.0 and
severity MEDIUM. -/
theorem C5_missing_charges_detector :
    (∀ r : JoinedRecord, missingChargeCandidate r = true ↔
        (r.total_billed = some 0 ∨ r.total_billed = none ∨
          r.bill_count = 0)) ∧
    (∀ (r : JoinedRecord) (tb : ℚ), r.total_billed = some tb →
        missingChargeLoss r =
          some (r.contracted_rate * max 1 r.bill_count - tb)) ∧
    (∀ r : JoinedRecord, confidenceMissingCharges r =
        min 1 (1/2 + (if r.status = some "Active" then 1/5 else 0)
          + (if r.total_usage > 0 then 1/5 else 0)
          + (if r.bill_count = 0 then 3/10 else 0))) ∧
    detectMissingChargesRow (7/10) rowA = some detA := by
  refine ⟨?_, ?_, ?_, ?_⟩
  · intro r
    simp [missingChargeCandidate, or_assoc]
  · intro r tb htb
    simp [missingChargeLoss, htb]
  · intro r
    rfl
  · norm_num [detectMissingChargesRow, missingChargeCandidate,
      confidenceMissingCharges, missingChargeLoss, calculateSeverity,
      severityScan, inBand, missingChargesSeverity, rowA, detA, baseRow,
      min_def]

/-- Witness for C5: the loss formula applied to the Scenario A row. -/
theorem C5_witness :
    missingChargeLoss rowA =
      some (rowA.contracted_rate * max 1 rowA.bill_count - 0) :=
  C5_missing_charges_detector.2.1 rowA 0 rfl

/-- Scenario B (spec §8): `base_rate=50`, `tier_multiplier=1.2`,
`avg_bill_amount=40`, `bill_count=3`, `has_rate_error=false`. -/
def rowB : JoinedRecord :=
  { baseRow with
    contract_id := "CTB", customer_id := "CUB", base_rate := 50,
    tier_multiplier := 6/5, avg_bill_amount := 40, bill_count := 3,
    total_billed := some 120, has_rate_error := some false }

/-- The detection Scenario B must produce. -/
def detB : LeakageDetection :=
  { customer_id := "CUB", contract_id := "CTB",
    leakage_type := "INCORRECT_RATES", severity := "MEDIUM",
    confidence := 7/10, estimated_loss := some 60 }

/-- C6: the incorrect-rates detector selects a row iff
`rate_variance_pct > 5` AND `rate_variance > 10` simultaneously, where
`expected_rate = base_rate * tier_multiplier`,
`rate_variance = |expected_rate - avg_bill_amount|` and
`rate_variance_pct` is the percentage guarded to 0 for a non-positive
expected rate; every emitted detection's loss is
`rate_variance * bill_count`.  Scenario B (`base_rate=50`,
`tier_multiplier=1.2`, `avg_bill_amount=40`, `bill_count=3`,
`has_rate_error=false`) emits an INCORRECT_RATES detection with loss 60
and confidence 0.7 (base 0.6 plus the +0.1 bonus since
`variance_pct = 33.3 > 20`). -/
theorem C6_incorrect_rates_detector :
    (∀ r : JoinedRecord, incorrectRateCandidate r = true ↔
        (rate_variance_pct r > 5 ∧ rate_variance r > 10)) ∧
    (∀ r : JoinedRecord, rate_variance r =
        |r.base_rate * r.tier_multiplier - r.avg_bill_amount|) ∧
    (∀ r : JoinedRecord, rate_variance_pct r =
        if expected_rate r > 0 then rate_variance r / expected_rate r * 100
        else 0) ∧
    (∀ (thr : ℚ) (r : JoinedRecord) (d : LeakageDetection),
        detectIncorrectRatesRow thr r = some d →
        d.estimated_loss = some (rate_variance r * r.bill_count)) ∧
    detectIncorrectRatesRow (7/10) rowB = some detB := by
  refine ⟨?_, ?_, ?_, ?_, ?_⟩
  · intro r
    simp [incorrectRateCandidate]
  · intro r
    rfl
  · intro r
    rfl
  · intro thr r d h
    simp only [detectIncorrectRatesRow] at h
    split_ifs at h
    cases h
    rfl
  · norm_num [detectIncorrectRatesRow, incorrectRateCandidate,
      rate_variance_pct, rate_variance, expected_rate, rateErrorFlag,
      confidenceIncorrectRates, calculateSeverity, severityScan, inBand,
      incorrectRatesSeverity, rowB, detB, baseRow, min_def, abs]

/-- Witness for C6: the loss formula applied to the emitted Scenario B
detection. -/
theorem C6_witness :
    detB.estimated_loss = some (rate_variance rowB * rowB.bill_count) :=
  C6_incorrect_rates_detector.2.2.2.1 (7/10) rowB detB (by
    norm_num [detectIncorrectRatesRow, incorrectRateCandidate,
      rate_variance_pct, rate_variance, expected_rate, rateErrorFlag,
      confidenceIncorrectRates, calculateSeverity, severityScan, inBand,
      incorrectRatesSeverity, rowB, detB, baseRow, min_def, abs])

/-- A usage-based row for the C7 witness: `total_usage=200`,
`included_usage=100`, `overage_rate=1`. -/
def rowU : JoinedRecord :=
  { baseRow with
    contract_id := "CTU", customer_id := "CUU", usage_based := true,
    total_usage := 200, included_usage := 100, overage_rate := 1,
    total_billed := some 100, bill_count := 1 }

/-- The detection the C7 witness row must produce. -/
def detU : LeakageDetection :=
  { customer_id := "CUU", contract_id := "CTU",
    leakage_type := "USAGE_MISMATCHES", severity := "MEDIUM",
    confidence := 9/10, estimated_loss := some 100 }

/-- A usage-mismatch candidate has a positive expected overage revenue:
otherwise `usage_variance_pct` is 0 and cannot exceed 15. -/
lemma usageCandidate_pos {r : JoinedRecord}
    (h : usageMismatchCandidate r = true) :
    0 < usageExpectedOverageRevenue r := by
  by_contra hneg
  have hpct : usage_variance_pct r = 0 := by
    simp [usage_variance_pct, hneg]
  simp [usageMismatchCandidate, hpct] at h
  exact absurd h.1 (by norm_num)

/-- C7: on the joined table the `overage_charge` term of the
usage-mismatch detector is the constant 0 (the billing aggregation never
carries an `overage_charge` column, so the `DataFrame.get` default
applies); hence `overage_variance` always equals
`expected_overage_revenue`, every candidate row has
`usage_variance_pct = 100`, and every emitted detection's loss is the
full `expected_overage_revenue`. -/
theorem C7_overage_charge_zero :
    overageChargeColumn = 0 ∧
    (∀ r : JoinedRecord,
        overage_variance r = usageExpectedOverageRevenue r) ∧
    (∀ r : JoinedRecord, usageMismatchCandidate r = true →
        usage_variance_pct r = 100) ∧
    (∀ (thr : ℚ) (r : JoinedRecord) (d : LeakageDetection),
        detectUsageMismatchesRow thr r = some d →
        d.estimated_loss = some (usageExpectedOverageRevenue r)) := by
  have hvar : ∀ r : JoinedRecord,
      overage_variance r = usageExpectedOverageRevenue r := by
    intro r
    simp [overage_variance, overageChargeColumn]
  refine ⟨rfl, hvar, ?_, ?_⟩
  · intro r h
    have hpos := usageCandidate_pos h
    rw [usage_variance_pct, if_pos hpos, hvar r,
      div_self (ne_of_gt hpos), abs_one, one_mul]
  · intro thr r d h
    simp only [detectUsageMismatchesRow] at h
    split_ifs at h with h1 h2 h3
    cases h
    have hpos := usageCandidate_pos h2
    simp [hvar r, abs_of_pos hpos]

/-- Witness for C7: the candidate and emission facts evaluated on a
concrete usage-based row. -/
theorem C7_witness :
    usage_variance_pct rowU = 100 ∧
    detU.estimated_loss = some (usageExpectedOverageRevenue rowU) :=
  ⟨C7_overage_charge_zero.2.2.1 rowU (by
      norm_num [usageMismatchCandidate, usage_variance_pct,
        overage_variance, usageExpectedOverageRevenue,
        actual_overage_usage, overageChargeColumn, rowU, baseRow, abs]),
   C7_overage_charge_zero.2.2.2 (7/10) rowU detU (by
      norm_num [detectUsageMismatchesRow, usageMismatchCandidate,
        usage_variance_pct, overage_variance, usageExpectedOverageRevenue,
        actual_overage_usage, overageChargeColumn,
        confidenceUsageMismatch, calculateSeverity, severityScan, inBand,
        usageMismatchesSeverity, rowU, detU, baseRow, min_def, abs])⟩

/-- Scenario D (spec §8): a row whose aggregated `error_types` carries the
`DUPLICATE_ENTRY` tag and whose `total_billed` is 250. -/
def rowD : JoinedRecord :=
  { baseRow with
    contract_id := "CTD", customer_id := "CUD",
    error_types := some (pyListRepr ["DUPLICATE_ENTRY"]),
    total_billed := some 250, bill_count := 2 }

/-- The detection Scenario D must produce. -/
def detD : LeakageDetection :=
  { customer_id := "CUD", contract_id := "CTD",
    leakage_type := "DUPLICATE_ENTRIES", severity := "HIGH",
    confidence := 9/10, estimated_loss := some 250 }

/-- C8: the duplicate-entries detector emits one detection per row whose
`error_types` string contains the `DUPLICATE_ENTRY` tag, with no
confidence-threshold gate (the detector takes no threshold at all), a
fixed confidence of 0.9 and the row's `total_billed` as the loss.
Scenario D (a flagged row with `total_billed=250`) yields exactly one
DUPLICATE_ENTRIES detection with confidence 0.9, loss 250 and severity
HIGH. -/
theorem C8_duplicate_entries_detector :
    (∀ rows : List JoinedRecord, (detect_duplicate_entries rows).length =
        (rows.filter duplicateCandidate).length) ∧
    (∀ r : JoinedRecord, duplicateCandidate r = true ↔
        ∃ s, r.error_types = some s ∧
          strContainsSub s "DUPLICATE_ENTRY" = true) ∧
    (∀ r : JoinedRecord, (detectDuplicateRow r).confidence = 9/10 ∧
        (detectDuplicateRow r).estimated_loss = r.total_billed) ∧
    detect_duplicate_entries [rowD] = [detD] := by
  refine ⟨?_, ?_, ?_, ?_⟩
  · intro rows
    simp [detect_duplicate_entries]
  · intro r
    cases h : r.error_types <;> simp [duplicateCandidate, h]
  · intro r
    exact ⟨rfl, rfl⟩
  · norm_num [detect_duplicate_entries, duplicateCandidate,
      detectDuplicateRow, calculateSeverity, severityScan, inBand,
      duplicateEntriesSeverity, rowD, detD, baseRow, List.filter,
      strContainsSub, pyListRepr, pyQuote, hasSubChars, startsWithChars]

/-- A row of the C1 counterexample table: `revenue_variance = 50`. -/
def mkAnomRow (s : String) : JoinedRecord :=
  { baseRow with contract_id := s, revenue_variance := 50 }

/-- Ten joined rows, enough for the anomaly model to run. -/
def anomRows : List JoinedRecord :=
  [mkAnomRow "CT0", mkAnomRow "CT1", mkAnomRow "CT2", mkAnomRow "CT3",
   mkAnomRow "CT4", mkAnomRow "CT5", mkAnomRow "CT6", mkAnomRow "CT7",
   mkAnomRow "CT8", mkAnomRow "CT9"]

/-- An isolation-forest outcome flagging only the first row an outlier. -/
def anomOutlier (r : JoinedRecord) : Bool :=
  decide (r.contract_id = "CT0")

/-- Anomaly scores: -0.15 for the first row, 0 for the rest. -/
def anomScore (r : JoinedRecord) : ℚ :=
  if r.contract_id = "CT0" then -(3/20) else 0

/-- The detection the anomaly pass emits for the first row: confidence
`min(0.8, 0.15 * 2) = 0.3`, below the default threshold 0.7. -/
def detAnom : LeakageDetection :=
  { customer_id := "CU0", contract_id := "CT0",
    leakage_type := "STATISTICAL_ANOMALY", severity := "LOW",
    confidence := 3/10, estimated_loss := some 50 }

/-- C1 as stated is false: `perform_anomaly_detection` appends detections
without consulting `confidence_threshold`.  On a ten-row table whose
first row scores -0.15, it emits a STATISTICAL_ANOMALY detection with
confidence 0.3 < 0.7 (the default threshold). -/
theorem C1_counterexample :
    perform_anomaly_detection anomRows anomOutlier anomScore = [detAnom] ∧
    detAnom.confidence < 7/10 := by
  have hother : ∀ s : String, ¬(s = "CT0") →
      detectAnomalyRow anomOutlier anomScore (mkAnomRow s) = none := by
    intro s hs
    simp [detectAnomalyRow, anomOutlier, anomScore, mkAnomRow, baseRow, hs]
  have h0 : detectAnomalyRow anomOutlier anomScore (mkAnomRow "CT0") =
      some detAnom := by
    norm_num [detectAnomalyRow, anomOutlier, anomScore, mkAnomRow, baseRow,
      confidenceAnomaly, calculateSeverity, severityScan, inBand,
      missingChargesSeverity, detAnom, min_def, abs]
  constructor
  · simp [perform_anomaly_detection, anomRows, List.filterMap_cons, h0,
      hother "CT1" (by decide), hother "CT2" (by decide),
      hother "CT3" (by decide), hother "CT4" (by decide),
      hother "CT5" (by decide), hother "CT6" (by decide),
      hother "CT7" (by decide), hother "CT8" (by decide),
      hother "CT9" (by decide)]
  · norm_num [detAnom]

/-- C1 amended: the three gated rule detectors (missing charges,
incorrect rates, usage mismatches) only emit detections whose confidence
is at least the configured threshold; the DUPLICATE_ENTRIES and
STATISTICAL_ANOMALY detectors emit without any threshold gate. -/
theorem C1_gated_detectors_respect_threshold :
    ∀ (thr : ℚ) (r : JoinedRecord) (d : LeakageDetection),
      (detectMissingChargesRow thr r = some d → thr ≤ d.confidence) ∧
      (detectIncorrectRatesRow thr r = some d → thr ≤ d.confidence) ∧
      (detectUsageMismatchesRow thr r = some d → thr ≤ d.confidence) := by
  intro thr r d
  refine ⟨?_, ?_, ?_⟩
  · intro h
    simp only [detectMissingChargesRow] at h
    split_ifs at h with h1 h2
    cases h
    exact h2
  · intro h
    simp only [detectIncorrectRatesRow] at h
    split_ifs at h with h1 h2
    cases h
    exact h2
  · intro h
    simp only [detectUsageMismatchesRow] at h
    split_ifs at h with h1 h2 h3
    cases h
    exact h3

/-- Witness for the amended C1: Scenario A's emission satisfies the
gate. -/
theorem C1_witness : (7:ℚ)/10 ≤ detA.confidence :=
  (C1_gated_detectors_respect_threshold (7/10) rowA detA).1 (by
    norm_num [detectMissingChargesRow, missingChargeCandidate,
      confidenceMissingCharges, missingChargeLoss, calculateSeverity,
      severityScan, inBand, missingChargesSeverity, rowA, detA, baseRow,
      min_def])

/-- The C2 counterexample row: `bill_count = 0` but `total_billed = 200`
with `contracted_rate = 100`. -/
def rowNeg : JoinedRecord :=
  { baseRow with
    contract_id := "CTN", customer_id := "CUN", contracted_rate := 100,
    bill_count := 0, total_billed := some 200, status := some "Active",
    total_usage := 50 }

/-- The detection the C2 counterexample row produces: loss
`100 * max(1,0) - 200 = -100`. -/
def detNeg : LeakageDetection :=
  { customer_id := "CUN", contract_id := "CTN",
    leakage_type := "MISSING_CHARGES", severity := "LOW",
    confidence := 1, estimated_loss := some (-100) }

/-- C2 as stated is false: a missing-charges candidate with
`bill_count == 0` and `total_billed > 0` is emitted (confidence 1 clears
the 0.7 threshold) with the negative estimated loss
`contracted_rate * max(1, bill_count) - total_billed = -100 < 0`. -/
theorem C2_counterexample :
    detectMissingChargesRow (7/10) rowNeg = some detNeg ∧
    detNeg.estimated_loss = some (-100) ∧ (-100 : ℚ) < 0 := by
  refine ⟨?_, rfl, by norm_num⟩
  norm_num [detectMissingChargesRow, missingChargeCandidate,
    confidenceMissingCharges, missingChargeLoss, calculateSeverity,
    severityScan, inBand, missingChargesSeverity, rowNeg, detNeg, baseRow,
    min_def]

/-- C2 amended: every detection of every detector has confidence in
[0, 1] and severity among LOW, MEDIUM, HIGH, CRITICAL; the
`estimated_loss >= 0` part of the claim does not hold for missing-charges
detections (see the counterexample), whose loss
`contracted_rate * max(1, bill_count) - total_billed` is negative when
the billed total exceeds the expected revenue. -/
theorem C2_confidence_severity_invariants :
    (∀ (thr : ℚ) (r : JoinedRecord) (d : LeakageDetection),
        detectMissingChargesRow thr r = some d →
        0 ≤ d.confidence ∧ d.confidence ≤ 1 ∧
        d.severity ∈ (["LOW", "MEDIUM", "HIGH", "CRITICAL"] :
          List String)) ∧
    (∀ (thr : ℚ) (r : JoinedRecord) (d : LeakageDetection),
        detectIncorrectRatesRow thr r = some d →
        0 ≤ d.confidence ∧ d.confidence ≤ 1 ∧
        d.severity ∈ (["LOW", "MEDIUM", "HIGH", "CRITICAL"] :
          List String)) ∧
    (∀ (thr : ℚ) (r : JoinedRecord) (d : LeakageDetection),
        detectUsageMismatchesRow thr r = some d →
        0 ≤ d.confidence ∧ d.confidence ≤ 1 ∧
        d.severity ∈ (["LOW", "MEDIUM", "HIGH", "CRITICAL"] :
          List String)) ∧
    (∀ (isOutlier : JoinedRecord → Bool) (score : JoinedRecord → ℚ)
        (r : JoinedRecord) (d : LeakageDetection),
        detectAnomalyRow isOutlier score r = some d →
        0 ≤ d.confidence ∧ d.confidence ≤ 1 ∧
        d.severity ∈ (["LOW", "MEDIUM", "HIGH", "CRITICAL"] :
          List String)) ∧
    (∀ r : JoinedRecord,
        0 ≤ (detectDuplicateRow r).confidence ∧
        (detectDuplicateRow r).confidence ≤ 1 ∧
        (detectDuplicateRow r).severity ∈
          (["LOW", "MEDIUM", "HIGH", "CRITICAL"] : List String)) := by
  refine ⟨?_, ?_, ?_, ?_, ?_⟩
  · intro thr r d h
    simp only [detectMissingChargesRow] at h
    split_ifs at h
    cases h
    refine ⟨(confidenceMissingCharges_bounds r).1,
      (confidenceMissingCharges_bounds r).2, ?_⟩
    simpa using calculateSeverity_mem missingChargesSeverity (by decide) _
  · intro thr r d h
    simp only [detectIncorrectRatesRow] at h
    split_ifs at h
    cases h
    refine ⟨(confidenceIncorrectRates_bounds r).1,
      (confidenceIncorrectRates_bounds r).2, ?_⟩
    simpa using calculateSeverity_mem incorrectRatesSeverity (by decide) _
  · intro thr r d h
    simp only [detectUsageMismatchesRow] at h
    split_ifs at h
    cases h
    refine ⟨(confidenceUsageMismatch_bounds r).1,
      (confidenceUsageMismatch_bounds r).2, ?_⟩
    simpa using calculateSeverity_mem usageMismatchesSeverity (by decide) _
  · intro isOutlier score r d h
    simp only [detectAnomalyRow] at h
    split_ifs at h
    cases h
    refine ⟨(confidenceAnomaly_bounds (score r)).1,
      (confidenceAnomaly_bounds (score r)).2, ?_⟩
    simpa using calculateSeverity_mem missingChargesSeverity (by decide) _
  · intro r
    refine ⟨by norm_num [detectDuplicateRow],
      by norm_num [detectDuplicateRow], ?_⟩
    simpa using calculateSeverity_mem duplicateEntriesSeverity (by decide) _

/-- Witness for the amended C2: the invariants hold for the Scenario A
emission. -/
theorem C2_witness :
    0 ≤ detA.confidence ∧ detA.confidence ≤ 1 ∧
    detA.severity ∈ (["LOW", "MEDIUM", "HIGH", "CRITICAL"] :
      List String) :=
  C2_confidence_severity_invariants.1 (7/10) rowA detA (by
    norm_num [detectMissingChargesRow, missingChargeCandidate,
      confidenceMissingCharges, missingChargeLoss, calculateSeverity,
      severityScan, inBand, missingChargesSeverity, rowA, detA, baseRow,
      min_def])

/-- C3 as stated is false: `run_full_audit` wraps the five sequential
detector calls in a single try whose handler re-raises, so when the first
detector fails (e.g. `KeyError` for a missing `total_billed` column) the
audit returns that failure and the detections of the remaining detectors
(here the incorrect-rates detection of Scenario B) are not included in
any output. -/
theorem C3_counterexample :
    run_full_audit (Except.error "KeyError: total_billed")
      (Except.ok [detB]) (Except.ok []) (Except.ok []) (Except.ok []) =
    Except.error "KeyError: total_billed" := rfl

/-- C3 amended: a failure in any one of the five detectors propagates out
of `run_full_audit` unchanged and no detections are returned — the
remaining detectors do not contribute; only when every detector succeeds
does the audit return the concatenation of the five detection lists. -/
theorem C3_failure_propagates :
    (∀ (e : String)
        (rates usage dups anomalies : Except String (List LeakageDetection)),
        run_full_audit (Except.error e) rates usage dups anomalies =
          Except.error e) ∧
    (∀ (m : List LeakageDetection) (e : String)
        (usage dups anomalies : Except String (List LeakageDetection)),
        run_full_audit (Except.ok m) (Except.error e) usage dups anomalies =
          Except.error e) ∧
    (∀ (m r : List LeakageDetection) (e : String)
        (dups anomalies : Except String (List LeakageDetection)),
        run_full_audit (Except.ok m) (Except.ok r) (Except.error e) dups
          anomalies = Except.error e) ∧
    (∀ (m r u : List LeakageDetection) (e : String)
        (anomalies : Except String (List LeakageDetection)),
        run_full_audit (Except.ok m) (Except.ok r) (Except.ok u)
          (Except.error e) anomalies = Except.error e) ∧
    (∀ (m r u d : List LeakageDetection) (e : String),
        run_full_audit (Except.ok m) (Except.ok r) (Except.ok u)
          (Except.ok d) (Except.error e) = Except.error e) ∧
    (∀ m r u d a : List LeakageDetection,
        run_full_audit (Except.ok m) (Except.ok r) (Except.ok u)
          (Except.ok d) (Except.ok a) =
          Except.ok (m ++ r ++ u ++ d ++ a)) :=
  ⟨fun _ _ _ _ _ => rfl, fun _ _ _ _ _ => rfl, fun _ _ _ _ _ => rfl,
   fun _ _ _ _ _ => rfl, fun _ _ _ _ _ => rfl, fun _ _ _ _ _ => rfl⟩

/-- C10: with fewer than 10 joined rows the anomaly detector returns the
empty detection list (without raising: the embedding is a total function
and the source returns before touching the model), the insufficient-data
condition is signalled, and the audit pipeline still completes with the
other detectors' results. -/
theorem C10_anomaly_insufficient_data :
    ∀ (rows : List JoinedRecord) (isOutlier : JoinedRecord → Bool)
      (score : JoinedRecord → ℚ), rows.length < 10 →
      perform_anomaly_detection rows isOutlier score = [] ∧
      anomalyInsufficientData rows = true ∧
      ∀ m r u d : List LeakageDetection,
        run_full_audit (Except.ok m) (Except.ok r) (Except.ok u)
          (Except.ok d)
          (Except.ok (perform_anomaly_detection rows isOutlier score)) =
        Except.ok (m ++ r ++ u ++ d) := by
  intro rows isOutlier score h
  have hempty : perform_anomaly_detection rows isOutlier score = [] := by
    simp [perform_anomaly_detection, h]
  refine ⟨hempty, by simp [anomalyInsufficientData, h], ?_⟩
  intro m r u d
  rw [hempty]
  show Except.ok (m ++ r ++ u ++ d ++ []) = _
  rw [List.append_nil]

/-- Witness for C10: a three-row table. -/
theorem C10_witness :
    perform_anomaly_detection [rowA, rowB, rowD] anomOutlier anomScore =
      [] ∧
    anomalyInsufficientData [rowA, rowB, rowD] = true ∧
    ∀ m r u d : List LeakageDetection,
      run_full_audit (Except.ok m) (Except.ok r) (Except.ok u)
        (Except.ok d)
        (Except.ok (perform_anomaly_detection [rowA, rowB, rowD]
          anomOutlier anomScore)) =
      Except.ok (m ++ r ++ u ++ d) :=
  C10_anomaly_insufficient_data [rowA, rowB, rowD] anomOutlier anomScore
    (by norm_num)

end RevenueLeakage

namespace RevenueLeakage

/-- A list whose key projection is duplicate-free matches any key at most
once. -/
lemma filter_key_length_le_one {α κ : Type} [DecidableEq κ] (f : α → κ)
    (l : List α) (h : (l.map f).Nodup) (x : κ) :
    (l.filter fun a => decide (f a = x)).length ≤ 1 := by
  induction l with
  | nil => simp
  | cons a t ih =>
    simp only [List.map_cons, List.nodup_cons] at h
    by_cases hax : f a = x
    · have ht : t.filter (fun a => decide (f a = x)) = [] := by
        rw [List.filter_eq_nil_iff]
        intro b hb
        simp only [decide_eq_true_eq]
        intro hbx
        exact h.1 (by
          rw [hax, ← hbx] at *
          exact hbx ▸ List.mem_map_of_mem f hb)
      simp [List.filter_cons, hax, ht]
    · simpa [List.filter_cons, hax] using ih h.2

/-- One output row per base row: a left merge whose right side matches
every base row at most once does not fan out. -/
lemma leftJoin_length {α β γ : Type} (base : List α) (right : List β)
    (onKey : α → β → Bool) (combine : α → Option β → γ)
    (h : ∀ a ∈ base, (right.filter (onKey a)).length ≤ 1) :
    (leftJoin base right onKey combine).length = base.length := by
  induction base with
  | nil => rfl
  | cons a t ih =>
    have hlen := h a (List.mem_cons_self a t)
    have hrest : (leftJoin t right onKey combine).length = t.length :=
      ih fun b hb => h b (List.mem_cons_of_mem a hb)
    simp only [leftJoin, List.flatMap_cons] at *
    rw [List.length_append, hrest]
    cases hf : right.filter (onKey a) with
    | nil =>
      simp
      omega
    | cons b bs =>
      cases bs with
      | nil =>
        simp
        omega
      | cons b2 bs2 =>
        rw [hf] at hlen
        simp at hlen

/-- The billing aggregate has one row per distinct contract id, whose
`contract_id` field is that key. -/
lemma billingAgg_keys (billing : List BillingEvent) :
    (billingAgg billing).map (fun b => b.contract_id) =
      (billing.map (fun e => e.contract_id)).dedup := by
  unfold billingAgg
  rw [List.map_map]
  exact List.map_id _

/-- The usage aggregate has one row per distinct contract id, whose
`contract_id` field is that key. -/
lemma usageAgg_keys (usage : List UsageEvent) :
    (usageAgg usage).map (fun u => u.contract_id) =
      (usage.map (fun e => e.contract_id)).dedup := by
  unfold usageAgg
  rw [List.map_map]
  exact List.map_id _

/-- Every merged pair comes from a base row, and a pair without a right
partner means no right row matched that base row. -/
lemma mem_leftJoin {α β : Type} (base : List α) (right : List β)
    (onKey : α → β → Bool) :
    ∀ p ∈ leftJoin base right onKey Prod.mk,
      p.1 ∈ base ∧ (p.2 = none → right.filter (onKey p.1) = []) := by
  intro p hp
  induction base with
  | nil => simp [leftJoin] at hp
  | cons a t ih =>
    simp only [leftJoin, List.flatMap_cons, List.mem_append] at hp
    rcases hp with hp | hp
    · cases hf : right.filter (onKey a) with
      | nil =>
        rw [hf] at hp
        simp only [List.mem_singleton] at hp
        subst hp
        exact ⟨List.mem_cons_self a t, fun _ => hf⟩
      | cons b bs =>
        rw [hf] at hp
        simp only [List.mem_map] at hp
        obtain ⟨x, _, hx⟩ := hp
        subst hx
        exact ⟨List.mem_cons_self a t, fun hnone => by cases hnone⟩
    · obtain ⟨h1, h2⟩ := ih hp
      exact ⟨List.mem_cons_of_mem a h1, h2⟩

/-- A fallible map over rows on which the function never raises returns
them all. -/
lemma mapExcept_ok_of_forall {α β : Type} (f : α → Except String β)
    (l : List α) (h : ∀ a ∈ l, ∃ b, f a = Except.ok b) :
    ∃ l2, mapExcept f l = Except.ok l2 ∧ l2.length = l.length := by
  induction l with
  | nil => exact ⟨[], rfl, rfl⟩
  | cons a t ih =>
    obtain ⟨b, hb⟩ := h a (List.mem_cons_self a t)
    obtain ⟨l2, hl2, hlen⟩ :=
      ih fun x hx => h x (List.mem_cons_of_mem a hx)
    refine ⟨b :: l2, ?_, by simpa using hlen⟩
    simp [mapExcept, hb, hl2]

/-- C9 amended: with unique customer and contract ids AND every contract
owning at least one billing event, the join engine returns exactly one
row per input contract (the aggregations produce one row per distinct
contract id before the left joins, so no join fans out, and the usage
count per contract — 0, 1, or many — is irrelevant).  The claim's
zero-billing-events case instead raises inside the feature derivation
(see the counterexample), so no row count exists there. -/
theorem C9_join_row_count (contracts : List Contract)
    (customers : List Customer) (billing : List BillingEvent)
    (usage : List UsageEvent)
    (hcu : (customers.map (fun cu => cu.customer_id)).Nodup)
    (_hco : (contracts.map (fun c => c.contract_id)).Nodup)
    (hbill : ∀ c ∈ contracts,
      c.contract_id ∈ billing.map (fun e => e.contract_id)) :
    ∃ rows,
      perform_intelligent_joins contracts customers billing usage =
        Except.ok rows ∧ rows.length = contracts.length := by
  have hforall : ∀ p ∈ leftJoin
      (leftJoin
        (leftJoin contracts customers
          (fun c cu => decide (cu.customer_id = c.customer_id)) Prod.mk)
        (billingAgg billing)
        (fun p b => decide (b.contract_id = p.1.contract_id)) Prod.mk)
      (usageAgg usage)
      (fun p u => decide (u.contract_id = p.1.1.contract_id)) Prod.mk,
      ∃ row, assembleRow p.1.1.1 p.1.1.2 p.1.2 p.2 = Except.ok row := by
    intro p hp
    have h2 := (mem_leftJoin _ _ _ p hp).1
    obtain ⟨h1, hnone⟩ := mem_leftJoin _ _ _ p.1 h2
    cases hba : p.1.2 with
    | some b =>
      exact ⟨_, rfl⟩
    | none =>
      exfalso
      have hf : (billingAgg billing).filter
          (fun b => decide (b.contract_id = p.1.1.1.contract_id)) = [] :=
        hnone hba
      have hc := (mem_leftJoin _ _ _ p.1.1 h1).1
      have hkey : p.1.1.1.contract_id ∈
          (billingAgg billing).map (fun b => b.contract_id) := by
        rw [billingAgg_keys]
        exact List.mem_dedup.mpr (hbill _ hc)
      obtain ⟨b, hbmem, hbkey⟩ := List.mem_map.mp hkey
      have hmem : b ∈ (billingAgg billing).filter
          (fun b => decide (b.contract_id = p.1.1.1.contract_id)) :=
        List.mem_filter.mpr ⟨hbmem, by simp [hbkey]⟩
      rw [hf] at hmem
      exact absurd hmem (List.not_mem_nil b)
  obtain ⟨rows, hrows, hlen⟩ := mapExcept_ok_of_forall _ _ hforall
  refine ⟨rows, hrows, ?_⟩
  rw [hlen]
  rw [leftJoin_length _ _ _ _ (fun p _ =>
    filter_key_length_le_one (fun u : UsageAggRow => u.contract_id) _
      (usageAgg_keys usage ▸ (usage.map (fun e => e.contract_id)).nodup_dedup)
      _)]
  rw [leftJoin_length _ _ _ _ (fun p _ =>
    filter_key_length_le_one (fun b : BillingAggRow => b.contract_id) _
      (billingAgg_keys billing ▸
        (billing.map (fun e => e.contract_id)).nodup_dedup) _)]
  exact leftJoin_length _ _ _ _ (fun c _ =>
    filter_key_length_le_one (fun cu : Customer => cu.customer_id) _ hcu _)

end RevenueLeakage

namespace RevenueLeakage

/-- A concrete contract for the C9 witness. -/
def contractW (cid cuid : String) : Contract :=
  { contract_id := cid, customer_id := cuid, service_type := "Internet",
    start_date := 0, end_date := 730, base_rate := 50,
    tier_multiplier := 1, contracted_rate := 50, is_promotional := false,
    promo_expiry_date := none, usage_based := true, usage_unit := "GB",
    included_usage := 100, overage_rate := 5 }

/-- A concrete customer for the C9 witness. -/
def customerW : Customer :=
  { customer_id := "CU1", customer_name := "Acme", tier := "Premium",
    status := "Active", email := "billing at acme" }

/-- A concrete billing event for the C9 witness. -/
def billingW (bid cid : String) (amount : ℚ) : BillingEvent :=
  { billing_id := bid, customer_id := "CU1", contract_id := cid,
    billing_date := 10, total_amount := amount, overage_charge := 0,
    status := "PAID", billing_error_type := none, rate_error := false }

/-- A concrete usage event for the C9 witness. -/
def usageW : UsageEvent :=
  { customer_id := "CU1", contract_id := "CT1", usage_date := 5,
    usage_amount := 120 }

/-- Witness for C9: two contracts, one customer, three billing events
(two of them for the same contract, so 1 and 2 events per contract) and
one usage event (so 1 and 0 usage events per contract) still yield
exactly two joined rows. -/
theorem C9_witness :
    ∃ rows,
      perform_intelligent_joins
        [contractW "CT1" "CU1", contractW "CT2" "CU2"] [customerW]
        [billingW "B1" "CT1" 50, billingW "B2" "CT1" 50,
         billingW "B3" "CT2" 60] [usageW] = Except.ok rows ∧
      rows.length = ([contractW "CT1" "CU1", contractW "CT2" "CU2"] :
        List Contract).length :=
  C9_join_row_count _ _ _ _ (by decide) (by decide) (by decide)

/-- C9 as stated is false for the zero-billing-events case it quantifies
over: with unique contract and customer ids but no billing event for
contract CT2, the left merge leaves NaN in CT2's `has_rate_error` cell;
the numeric `fillna(0)` skips the object column and
`df['has_rate_error'].astype(int)` (data_analyst.py:263) raises
`ValueError` inside `perform_intelligent_joins`, so no joined table — of
any row count — is produced. -/
theorem C9_counterexample :
    perform_intelligent_joins
      [contractW "CT1" "CU1", contractW "CT2" "CU2"] [customerW]
      [billingW "B1" "CT1" 50] [] =
    Except.error "ValueError: cannot convert float NaN to integer" := by
  simp [perform_intelligent_joins, mapExcept, assembleRow, leftJoin,
    billingAgg, usageAgg, listMode, contractW, customerW, billingW,
    List.filter_cons, List.dedup_cons_of_not_mem]

end RevenueLeakage
